import Mathlib

/-!
Shallow embedding of `main.py` of the vilnius_weather repository: a JSON
value model with Python exception semantics, the three provider adapters
(`get_open_meteo`, `get_weather_api`, `get_wttr_in`), the HTTP request
wrapper `_make_request` with retry and cache, the aggregator
`get_all_weather_data`, cache key derivation `_get_cache_key`, and the
report formatter `format_weather_report`.

Numbers are modelled by exact rationals (Python floats and ints both map
to ℚ or Int as the operation demands); `float()` and `int()` string
parsing is modelled for decimal and exponent notation (Python extras such
as `inf`, `nan` and digit-group underscores are not modelled and map to a
parse failure, which no theorem below relies on).
-/

/-- JSON values as decoded by the Python `json` module: `null`, booleans,
integers, floats, strings, arrays, and string-keyed objects. -/
inductive JVal where
  | null : JVal
  | jbool : Bool → JVal
  | jint : Int → JVal
  | jfloat : ℚ → JVal
  | jstr : String → JVal
  | jarr : List JVal → JVal
  | jobj : List (String × JVal) → JVal

/-- Python exception classes that the code under study can raise or catch
during field extraction and conversion. -/
inductive PyExc where
  | valueError : PyExc
  | typeError : PyExc
  | attributeError : PyExc
  | keyError : PyExc
  | indexError : PyExc
deriving DecidableEq, Repr

/-- Python `v is None` on a JSON value. -/
def isNull : JVal → Bool
  | .null => true
  | _ => false

/-- Python truthiness of a JSON value: `None`, `False`, `0`, `0.0`, `""`,
`[]` and `{}` are falsy, everything else truthy. -/
def pyTruthy : JVal → Bool
  | .null => false
  | .jbool b => b
  | .jint n => n != 0
  | .jfloat q => q != 0
  | .jstr s => s != ""
  | .jarr xs => !xs.isEmpty
  | .jobj kvs => !kvs.isEmpty

/-- Truthiness of an optional value (`not data` where `data` may be `None`). -/
def pyTruthyOpt : Option JVal → Bool
  | none => false
  | some v => pyTruthy v

/-- First binding of a key in an association list (JSON objects from the
wire have unique keys, which all payloads in this file respect). -/
def assocFind (k : String) : List (String × JVal) → Option JVal
  | [] => none
  | (k2, v) :: rest => if k2 = k then some v else assocFind k rest

/-- Python `d.get(k, default)`: association lookup on a dict, and
`AttributeError` when the receiver is not a dict. -/
def dictGet (v : JVal) (k : String) (dflt : JVal) : Except PyExc JVal :=
  match v with
  | .jobj kvs => .ok ((assocFind k kvs).getD dflt)
  | _ => .error .attributeError

/-- Python string equality against a JSON value (a string compares equal
only to an equal string; numbers and other shapes are never equal to it). -/
def pyEqStr (k : String) (v : JVal) : Bool :=
  match v with
  | .jstr s => s = k
  | _ => false

/-- Whether `needle` occurs as a contiguous substring of `hay`. -/
def strHasSub (hay needle : String) : Bool :=
  (List.range (hay.toList.length + 1)).any
    (fun i => (hay.toList.drop i).take needle.toList.length = needle.toList)

/-- Python `k in v` for a string `k`: key membership on a dict, element
equality on a list, substring test on a string, `TypeError` otherwise. -/
def pyContains (v : JVal) (k : String) : Except PyExc Bool :=
  match v with
  | .jobj kvs => .ok (kvs.any (fun p => p.1 = k))
  | .jarr xs => .ok (xs.any (pyEqStr k))
  | .jstr s => .ok (strHasSub s k)
  | _ => .error .typeError

/-- Python `v[k]` for a string key: dict lookup raising `KeyError` when the
key is absent, `TypeError` on lists, strings and every other shape. -/
def pySubscriptStr (v : JVal) (k : String) : Except PyExc JVal :=
  match v with
  | .jobj kvs =>
    match assocFind k kvs with
    | some x => .ok x
    | none => .error .keyError
  | _ => .error .typeError

/-- Python `v[i]` for a natural index: list indexing raising `IndexError`
past the end, one-character string on strings, `KeyError` on a
string-keyed dict (an integer key is never present there), `TypeError`
elsewhere. -/
def pySubscriptIdx (v : JVal) (i : Nat) : Except PyExc JVal :=
  match v with
  | .jarr xs =>
    match xs.get? i with
    | some x => .ok x
    | none => .error .indexError
  | .jstr s =>
    match s.toList.get? i with
    | some c => .ok (.jstr c.toString)
    | none => .error .indexError
  | .jobj _ => .error .keyError
  | _ => .error .typeError

/-- Decimal digit test. -/
def isDigitChar (c : Char) : Bool := '0' ≤ c && c ≤ '9'

/-- Numeric value of a decimal digit character. -/
def digitVal (c : Char) : Nat := c.toNat - '0'.toNat

/-- Natural number denoted by a list of decimal digits. -/
def natOfDigits (l : List Char) : Nat := l.foldl (fun a c => a * 10 + digitVal c) 0

/-- Strip leading and trailing whitespace, as the Python `float` and `int` conversions do
before parsing a string. -/
def stripWs (l : List Char) : List Char :=
  ((l.dropWhile Char.isWhitespace).reverse.dropWhile Char.isWhitespace).reverse

/-- Parse an unsigned decimal mantissa `digits[.digits]` requiring at least
one digit; returns its value and the unconsumed remainder. -/
def parseMantissa (l : List Char) : Option (ℚ × List Char) :=
  let ip := l.takeWhile isDigitChar
  let r1 := l.dropWhile isDigitChar
  match r1 with
  | '.' :: r2 =>
    let fp := r2.takeWhile isDigitChar
    let r3 := r2.dropWhile isDigitChar
    if ip.isEmpty && fp.isEmpty then none
    else some ((natOfDigits ip : ℚ) + (natOfDigits fp : ℚ) / (10 : ℚ) ^ fp.length, r3)
  | _ => if ip.isEmpty then none else some ((natOfDigits ip : ℚ), r1)

/-- Parse a complete exponent suffix `[eE][+-]?digits`; `none` unless the
whole remainder is a well-formed exponent. -/
def parseExpPart (l : List Char) : Option Int :=
  match l with
  | c :: r =>
    if c = 'e' || c = 'E' then
      match r with
      | '+' :: t => if t ≠ [] && t.all isDigitChar then some (natOfDigits t) else none
      | '-' :: t => if t ≠ [] && t.all isDigitChar then some (-(natOfDigits t : Int)) else none
      | t => if t ≠ [] && t.all isDigitChar then some (natOfDigits t) else none
    else none
  | [] => none

/-- Parse an unsigned Python float literal (mantissa with optional
exponent), consuming the entire input. -/
def parseUnsignedFloat (l : List Char) : Option ℚ :=
  match parseMantissa l with
  | none => none
  | some (m, rest) =>
    match rest with
    | [] => some m
    | _ =>
      match parseExpPart rest with
      | some k => some (m * (10 : ℚ) ^ k)
      | none => none

/-- Python `float(s)` on a string: strip whitespace, optional sign, then a
decimal mantissa with optional exponent; anything else is a parse failure. -/
def pyParseFloat (s : String) : Option ℚ :=
  match stripWs s.toList with
  | '+' :: r => parseUnsignedFloat r
  | '-' :: r => (parseUnsignedFloat r).map Neg.neg
  | r => parseUnsignedFloat r

/-- Python `int(s)` on a string: strip whitespace, optional sign, then one
or more decimal digits only — a fractional string such as "50.5" fails. -/
def pyParseInt (s : String) : Option Int :=
  match stripWs s.toList with
  | '+' :: r => if r ≠ [] && r.all isDigitChar then some (natOfDigits r) else none
  | '-' :: r => if r ≠ [] && r.all isDigitChar then some (-(natOfDigits r : Int)) else none
  | r => if r ≠ [] && r.all isDigitChar then some (natOfDigits r) else none

/-- Python `float(v)`: identity on numbers, `0`/`1` on booleans, string
parsing raising `ValueError` on failure, `TypeError` on `None`, lists and
dicts. -/
def pyFloat (v : JVal) : Except PyExc ℚ :=
  match v with
  | .jint n => .ok (n : ℚ)
  | .jfloat q => .ok q
  | .jbool b => .ok (if b then 1 else 0)
  | .jstr s =>
    match pyParseFloat s with
    | some q => .ok q
    | none => .error .valueError
  | _ => .error .typeError

/-- Python `int(v)`: identity on integers, truncation toward zero on
floats, `0`/`1` on booleans, digits-only string parsing raising
`ValueError`, `TypeError` on `None`, lists and dicts. -/
def pyInt (v : JVal) : Except PyExc Int :=
  match v with
  | .jint n => .ok n
  | .jfloat q => .ok (Int.tdiv q.num (q.den : Int))
  | .jbool b => .ok (if b then 1 else 0)
  | .jstr s =>
    match pyParseInt s with
    | some n => .ok n
    | none => .error .valueError
  | _ => .error .typeError

/-- Conversion factor `KPH_TO_MPS = 1 / 3.6` from `main.py`. -/
def KPH_TO_MPS : ℚ := 1 / 3.6

/-- The canonical weather record built by every adapter. Numeric fields
hold the result of the Python `float()` and `int()` conversions (exact
rationals); `description`, `source` and `city` hold the raw Python value
placed in the dict, which for `description` can be any JSON value. -/
structure WeatherData where
  temperature : ℚ
  feels_like : ℚ
  humidity : ℚ
  pressure : ℚ
  wind_speed : ℚ
  wind_direction : ℚ
  description : JVal
  source : JVal
  city : JVal

/-- The fixed Open-Meteo weather-code table `open_meteo_weather_codes`. -/
def open_meteo_weather_codes : Int → Option String
  | 0 => some "Clear sky"
  | 1 => some "Mainly clear"
  | 2 => some "Partly cloudy"
  | 3 => some "Overcast"
  | 45 => some "Fog"
  | 48 => some "Depositing rime fog"
  | 51 => some "Light drizzle"
  | 53 => some "Moderate drizzle"
  | 55 => some "Dense drizzle"
  | 56 => some "Light freezing drizzle"
  | 57 => some "Dense freezing drizzle"
  | 61 => some "Slight rain"
  | 63 => some "Moderate rain"
  | 65 => some "Heavy rain"
  | 66 => some "Light freezing rain"
  | 67 => some "Heavy freezing rain"
  | 71 => some "Slight snow fall"
  | 73 => some "Moderate snow fall"
  | 75 => some "Heavy snow fall"
  | 77 => some "Snow grains"
  | 80 => some "Slight rain showers"
  | 81 => some "Moderate rain showers"
  | 82 => some "Violent rain showers"
  | 85 => some "Slight snow showers"
  | 86 => some "Heavy snow showers"
  | 95 => some "Thunderstorm"
  | 96 => some "Thunderstorm with slight hail"
  | 99 => some "Thunderstorm with heavy hail"
  | _ => none

/-- Python `self.open_meteo_weather_codes.get(weather_code, "Unknown")`:
hash lookup equating an integral float or a boolean with the integer key,
defaulting to "Unknown", and raising `TypeError` on an unhashable key. -/
def codeDescription (v : JVal) : Except PyExc String :=
  match v with
  | .jint n => .ok ((open_meteo_weather_codes n).getD "Unknown")
  | .jfloat q => .ok (if q.den = 1 then (open_meteo_weather_codes q.num).getD "Unknown" else "Unknown")
  | .jbool b => .ok ((open_meteo_weather_codes (if b then 1 else 0)).getD "Unknown")
  | .jstr _ => .ok "Unknown"
  | .null => .ok "Unknown"
  | .jarr _ => .error .typeError
  | .jobj _ => .error .typeError

/-- Python `float(current.get(k, dflt))` as one step. -/
def getFloatField (current : JVal) (k : String) (dflt : JVal) : Except PyExc ℚ :=
  match dictGet current k dflt with
  | .error e => .error e
  | .ok x => pyFloat x

/-- Python `int(current.get(k, dflt))` as one step. -/
def getIntField (current : JVal) (k : String) (dflt : JVal) : Except PyExc Int :=
  match dictGet current k dflt with
  | .error e => .error e
  | .ok x => pyInt x

/-- The `_validate_weather_data` check on a constructed record. The Python
function checks that `temperature`, `description`, `source` and `city` are
present and not `None` and that refloating the temperature succeeds; in
the embedding the record always carries all fields and `temperature` is
already the successful result of `float()`, so the checks with any content
are the non-`None` tests on `description`, `source` and `city`. -/
def validate_weather_data (w : WeatherData) : Bool :=
  !isNull w.description && !isNull w.source && !isNull w.city

/-- Shared tail of every adapter: `return weather_data` when
`_validate_weather_data` passes, `return None` otherwise. -/
def finishReading (w : WeatherData) : Except PyExc (Option WeatherData) :=
  if validate_weather_data w then .ok (some w) else .ok none

/-- The `except (ValueError, TypeError)` handler wrapped around each
adapter body: those two exception classes become `return None`, every
other exception keeps propagating. -/
def catchValueType (r : Except PyExc (Option WeatherData)) : Except PyExc (Option WeatherData) :=
  match r with
  | .error .valueError => .ok none
  | .error .typeError => .ok none
  | r2 => r2

/-- Body of `get_open_meteo` applied to the decoded payload returned by
`_make_request` (network behaviour abstracted into the `data` argument). -/
def openMeteoBody (city : String) (data : Option JVal) : Except PyExc (Option WeatherData) :=
  match data with
  | none => .ok none
  | some v =>
  if !pyTruthy v then .ok none else
  match pyContains v "current" with
  | .error e => .error e
  | .ok false => .ok none
  | .ok true =>
  match pySubscriptStr v "current" with
  | .error e => .error e
  | .ok current =>
  match dictGet current "temperature_2m" .null with
  | .error e => .error e
  | .ok temperature =>
  if isNull temperature then .ok none else
  match dictGet current "weather_code" .null with
  | .error e => .error e
  | .ok weather_code =>
  match codeDescription weather_code with
  | .error e => .error e
  | .ok description =>
  match pyFloat temperature with
  | .error e => .error e
  | .ok temp =>
  match getFloatField current "apparent_temperature" temperature with
  | .error e => .error e
  | .ok feels =>
  match getFloatField current "relative_humidity_2m" (.jint 0) with
  | .error e => .error e
  | .ok hum =>
  match getFloatField current "pressure_msl" (.jint 0) with
  | .error e => .error e
  | .ok pres =>
  match getFloatField current "wind_speed_10m" (.jint 0) with
  | .error e => .error e
  | .ok ws =>
  match getFloatField current "wind_direction_10m" (.jint 0) with
  | .error e => .error e
  | .ok wdir =>
  finishReading
    { temperature := temp, feels_like := feels, humidity := hum,
      pressure := pres, wind_speed := ws, wind_direction := wdir,
      description := .jstr description, source := .jstr "Open-Meteo", city := .jstr city }

/-- `get_open_meteo`: body under the `except (ValueError, TypeError)`. -/
def get_open_meteo (city : String) (data : Option JVal) : Except PyExc (Option WeatherData) :=
  catchValueType (openMeteoBody city data)

/-- Body of `get_weather_api` applied to the decoded payload. -/
def weatherApiBody (city : String) (data : Option JVal) : Except PyExc (Option WeatherData) :=
  match data with
  | none => .ok none
  | some v =>
  if !pyTruthy v then .ok none else
  match pyContains v "current" with
  | .error e => .error e
  | .ok false => .ok none
  | .ok true =>
  match pySubscriptStr v "current" with
  | .error e => .error e
  | .ok current =>
  match dictGet current "temp_c" .null with
  | .error e => .error e
  | .ok temperature =>
  if isNull temperature then .ok none else
  match pyFloat temperature with
  | .error e => .error e
  | .ok temp =>
  match getFloatField current "feelslike_c" temperature with
  | .error e => .error e
  | .ok feels =>
  match getFloatField current "humidity" (.jint 0) with
  | .error e => .error e
  | .ok hum =>
  match getFloatField current "pressure_mb" (.jint 0) with
  | .error e => .error e
  | .ok pres =>
  match getFloatField current "wind_kph" (.jint 0) with
  | .error e => .error e
  | .ok wk =>
  match getFloatField current "wind_degree" (.jint 0) with
  | .error e => .error e
  | .ok wdir =>
  match dictGet current "condition" (.jobj []) with
  | .error e => .error e
  | .ok cond =>
  match dictGet cond "text" (.jstr "Unknown") with
  | .error e => .error e
  | .ok descr =>
  finishReading
    { temperature := temp, feels_like := feels, humidity := hum,
      pressure := pres, wind_speed := wk * KPH_TO_MPS, wind_direction := wdir,
      description := descr, source := .jstr "WeatherAPI", city := .jstr city }

/-- `get_weather_api`: body under the `except (ValueError, TypeError)`. -/
def get_weather_api (city : String) (data : Option JVal) : Except PyExc (Option WeatherData) :=
  catchValueType (weatherApiBody city data)

/-- Body of `get_wttr_in` applied to the decoded payload. -/
def wttrInBody (city : String) (data : Option JVal) : Except PyExc (Option WeatherData) :=
  match data with
  | none => .ok none
  | some v =>
  if !pyTruthy v then .ok none else
  match pyContains v "current_condition" with
  | .error e => .error e
  | .ok false => .ok none
  | .ok true =>
  match pySubscriptStr v "current_condition" with
  | .error e => .error e
  | .ok cc =>
  if !pyTruthy cc then .ok none else
  match pySubscriptIdx cc 0 with
  | .error e => .error e
  | .ok current =>
  match dictGet current "temp_C" .null with
  | .error e => .error e
  | .ok temp_c =>
  if isNull temp_c then .ok none else
  match pyFloat temp_c with
  | .error e => .error e
  | .ok temp =>
  match getFloatField current "FeelsLikeC" temp_c with
  | .error e => .error e
  | .ok feels =>
  match getIntField current "humidity" (.jint 0) with
  | .error e => .error e
  | .ok hum =>
  match getIntField current "pressure" (.jint 0) with
  | .error e => .error e
  | .ok pres =>
  match getFloatField current "windspeedKmph" (.jint 0) with
  | .error e => .error e
  | .ok wk =>
  match getIntField current "winddirDegree" (.jint 0) with
  | .error e => .error e
  | .ok wdir =>
  match dictGet current "weatherDesc" (.jarr [.jobj []]) with
  | .error e => .error e
  | .ok wdesc =>
  match pySubscriptIdx wdesc 0 with
  | .error e => .error e
  | .ok first =>
  match dictGet first "value" (.jstr "Unknown") with
  | .error e => .error e
  | .ok descr =>
  finishReading
    { temperature := temp, feels_like := feels, humidity := (hum : ℚ),
      pressure := (pres : ℚ), wind_speed := wk * KPH_TO_MPS, wind_direction := (wdir : ℚ),
      description := descr, source := .jstr "wttr.in", city := .jstr city }

/-- `get_wttr_in`: body under the `except (ValueError, TypeError)`. -/
def get_wttr_in (city : String) (data : Option JVal) : Except PyExc (Option WeatherData) :=
  catchValueType (wttrInBody city data)

/-- ASCII hex digit (uppercase, as `urllib.parse.quote` emits). -/
def hexDigit (n : Nat) : Char :=
  if n < 10 then Char.ofNat ('0'.toNat + n) else Char.ofNat ('A'.toNat + (n - 10))

/-- Percent-encode one character as `urllib.parse.quote` with an empty safe set does:
unreserved characters pass through, anything else becomes `%XX` (the URLs
in this program are ASCII, so one character is one byte). -/
def quoteChar (c : Char) : String :=
  if c.isAlphanum || c = '-' || c = '.' || c = '_' || c = '~' then c.toString
  else String.mk ['%', hexDigit (c.toNat / 16 % 16), hexDigit (c.toNat % 16)]

/-- Python `quote` of the URL with an empty safe set. -/
def urlquote (s : String) : String := String.join (s.toList.map quoteChar)

/-- Insert one parameter into a key-sorted parameter list. -/
def insertParam (p : String × JVal) : List (String × JVal) → List (String × JVal)
  | [] => [p]
  | q :: rest => if p.1 ≤ q.1 then p :: q :: rest else q :: insertParam p rest

/-- Python `sorted(params.items())`: sort the parameter pairs by key (dict
keys are unique, so tuple comparison never reaches the values). -/
def sortParams : List (String × JVal) → List (String × JVal)
  | [] => []
  | p :: rest => insertParam p (sortParams rest)

/-- `_get_cache_key`. The Python code hashes `frozenset(sorted_params)`
with the builtin `hash`, whose value on strings depends on the
per-process hash seed (PYTHONHASHSEED randomization); the embedding
therefore takes the per-process hash function as the `pyhash` argument. An
absent or empty parameter dict takes the hash-free branch. -/
def get_cache_key (pyhash : List (String × JVal) → Int) (url : String)
    (params : List (String × JVal)) : String :=
  if params.isEmpty then "cache_" ++ urlquote url ++ ".json"
  else "cache_" ++ urlquote url ++ "_" ++ toString (pyhash (sortParams params)) ++ ".json"

/-- Whether the string begins with the given scheme (Python
`str.startswith`, over the character list so that it evaluates inside
the kernel). -/
def strBeginsWith (s p : String) : Bool :=
  s.toList.take p.toList.length = p.toList

/-- `_validate_url`: non-empty and an approved scheme. -/
def validate_url (url : String) : Bool :=
  url ≠ "" && (strBeginsWith url "http://" || strBeginsWith url "https://")

/-- One cache file: its write time and the stored payload. -/
structure CacheEntry where
  mtime : ℚ
  payload : JVal

/-- The cache directory: newest write for a key shadows older ones, like a
file overwrite. -/
abbrev CacheState := List (String × CacheEntry)

/-- Find the (newest) cache entry for a key. -/
def lookupCache : CacheState → String → Option CacheEntry
  | [], _ => none
  | (k2, e) :: rest, k => if k2 = k then some e else lookupCache rest k

/-- `_cache_response`: write the payload when caching is enabled (the
Python write is best-effort — an I/O failure is swallowed; the embedding
models the successful write). -/
def cache_response (enable : Bool) (st : CacheState) (k : String) (now : ℚ)
    (v : JVal) : CacheState :=
  if enable then (k, ⟨now, v⟩) :: st else st

/-- `_load_cached_response`: `None` when caching is disabled or the entry
is absent or its age has reached the TTL; otherwise the stored payload
(an unreadable or unparsable cache file, an I/O fault, also yields
`None` and is not separately modelled). -/
def load_cached_response (enable : Bool) (ttl : ℚ) (now : ℚ) (st : CacheState)
    (k : String) : Option JVal :=
  if !enable then none
  else
    match lookupCache st k with
    | none => none
    | some e => if now - e.mtime < ttl then some e.payload else none

/-- Outcome of one network attempt inside `_make_request`: a timeout, a
non-timeout `RequestException` (connection refused, DNS failure, non-2xx
status via `raise_for_status`), a body that fails to decode as JSON, or a
decoded payload. -/
inductive NetOutcome where
  | timeout : NetOutcome
  | transportError : NetOutcome
  | jsonError : NetOutcome
  | success : JVal → NetOutcome

/-- What one run of the retry loop produced: the result, how many network
calls were made, and how many seconds were spent in `time.sleep(1)`. -/
structure LoopResult where
  result : Option JVal
  calls : Nat
  sleeps : Nat

/-- The `for attempt in range(retry_attempts)` loop of `_make_request`:
attempt `i` with the given number of attempts remaining. A timeout on the
last attempt returns `None`; an earlier timeout sleeps one second and
retries; any other transport or decode error returns `None` at once; a
decoded payload is returned at once. -/
def attemptLoop (net : Nat → NetOutcome) (i : Nat) : Nat → LoopResult
  | 0 => ⟨none, 0, 0⟩
  | remaining + 1 =>
    match net i with
    | .success v => ⟨some v, 1, 0⟩
    | .transportError => ⟨none, 1, 0⟩
    | .jsonError => ⟨none, 1, 0⟩
    | .timeout =>
      if remaining = 0 then ⟨none, 1, 0⟩
      else
        let r := attemptLoop net (i + 1) remaining
        ⟨r.result, r.calls + 1, r.sleeps + 1⟩

/-- Everything observable about one `_make_request` call. -/
structure RequestResult where
  result : Option JVal
  calls : Nat
  sleeps : Nat
  cacheAfter : CacheState

/-- `_make_request`: URL validation, then a cache probe (note the Python
`if cached_data:` — a cached but falsy payload is ignored), then the
retry loop, caching a successful payload. The network is abstracted as
the outcome `net i` of attempt number `i`. -/
def make_request (pyhash : List (String × JVal) → Int) (enable : Bool) (ttl : ℚ)
    (retry_attempts : Nat) (net : Nat → NetOutcome) (now : ℚ) (st : CacheState)
    (url : String) (params : List (String × JVal)) : RequestResult :=
  if !validate_url url then ⟨none, 0, 0, st⟩
  else
    let key := get_cache_key pyhash url params
    let cached := if enable then load_cached_response enable ttl now st key else none
    let runLoop : RequestResult :=
      let r := attemptLoop net 0 retry_attempts
      let st2 := match r.result with
        | some v => cache_response enable st key now v
        | none => st
      ⟨r.result, r.calls, r.sleeps, st2⟩
    match cached with
    | some c => if pyTruthy c then ⟨some c, 0, 0, st⟩ else runLoop
    | none => runLoop

/-- Python dict insertion: overwrite in place when the key exists, append
otherwise. -/
def dictInsert (m : List (String × WeatherData)) (k : String) (v : WeatherData) :
    List (String × WeatherData) :=
  if m.any (fun p => p.1 = k) then m.map (fun p => if p.1 = k then (k, v) else p)
  else m ++ [(k, v)]

/-- One iteration of the `get_all_weather_data` loop: a reading is
inserted under the provider name (a nine-field dict is always truthy, so
`if result:` admits every returned reading); a `None` result or a raised
exception — absorbed by the `except Exception` — leaves the mapping
unchanged. -/
def aggStep (acc : List (String × WeatherData))
    (p : String × Except PyExc (Option WeatherData)) : List (String × WeatherData) :=
  match p.2 with
  | .ok (some w) => dictInsert acc p.1 w
  | _ => acc

/-- `get_all_weather_data` over the listed adapter runs, each run being
the provider name together with what calling the adapter did (a reading,
`None`, or an escaped exception). -/
def get_all_weather_data (runs : List (String × Except PyExc (Option WeatherData))) :
    List (String × WeatherData) :=
  runs.foldl aggStep []

/-- The fixed `api_functions` list of `get_all_weather_data`, each adapter
applied to the payload its `_make_request` produced. -/
def api_functions (city : String) (dOM dWT dWA : Option JVal) :
    List (String × Except PyExc (Option WeatherData)) :=
  [("Open-Meteo", get_open_meteo city dOM),
   ("wttr.in", get_wttr_in city dWT),
   ("WeatherAPI", get_weather_api city dWA)]

/-- Python `str()` of a scalar JSON value as interpolated by an f-string.
Containers (whose Python rendering is the container repr) are not
modelled: every reading produced by the adapters in this file stores the
configured city as a string, so the formatter never meets one there. -/
def pyStrScalar : JVal → String
  | .null => "None"
  | .jbool b => if b then "True" else "False"
  | .jint n => toString n
  | .jfloat q => toString q
  | .jstr s => s
  | .jarr _ => ""
  | .jobj _ => ""

/-- Round to the nearest integer, ties to even, as the Python fixed-point
format specifier does on the exact value. -/
def roundHalfEven (q : ℚ) : Int :=
  let f : Int := ⌊q⌋
  let r : ℚ := q - f
  if r < 1 / 2 then f
  else if 1 / 2 < r then f + 1
  else if f % 2 = 0 then f else f + 1

/-- Left-pad a digit string with zeros to the given width. -/
def padZeros (s : String) (w : Nat) : String :=
  String.mk (List.replicate (w - s.length) '0') ++ s

/-- Python fixed-point formatting of the exact rational value with `prec` decimals. -/
def fmtFixed (prec : Nat) (q : ℚ) : String :=
  let scaled := roundHalfEven (q * (10 : ℚ) ^ prec)
  if prec = 0 then toString scaled
  else
    let sgn := if scaled < 0 then "-" else ""
    let n := scaled.natAbs
    sgn ++ toString (n / 10 ^ prec) ++ "." ++ padZeros (toString (n % 10 ^ prec)) prec

/-- One per-provider block of the report. The `feels_like`, `humidity`,
`pressure` and `wind_speed` lines are guarded in Python by `is not None`
tests; a reading built by any adapter always carries all of them, so the
embedding always prints them. -/
def sourceBlock (p : String × WeatherData) : String :=
  p.1 ++ ":\n" ++
  "  Temperature: " ++ fmtFixed 1 p.2.temperature ++ "°C\n" ++
  "  Feels like: " ++ fmtFixed 1 p.2.feels_like ++ "°C\n" ++
  "  Conditions: " ++ pyStrScalar p.2.description ++ "\n" ++
  "  Humidity: " ++ fmtFixed 0 p.2.humidity ++ "%\n" ++
  "  Pressure: " ++ fmtFixed 0 p.2.pressure ++ " hPa\n" ++
  "  Wind: " ++ fmtFixed 1 p.2.wind_speed ++ " m/s\n" ++ "\n"

/-- `format_weather_report`, with the wall-clock timestamp string passed
in as `now`. The empty aggregate returns the fixed sentinel before any
other work; otherwise the header names the city of the first-inserted reading,
the per-provider blocks follow in mapping order, then the average
temperature over all readings and the source count. -/
def format_weather_report (now : String) (results : List (String × WeatherData)) :
    String :=
  if results.isEmpty then "No weather data could be retrieved from any source.\n"
  else
    let separator := String.mk (List.replicate 40 '=')
    let headCity :=
      match results.head? with
      | some p => pyStrScalar p.2.city
      | none => "WEATHER"
    let blocks := String.join (results.map sourceBlock)
    let temps := results.map (fun p => p.2.temperature)
    let avgLine :=
      if temps.isEmpty then ""
      else "Average Temperature: " ++ fmtFixed 1 (temps.sum / (temps.length : ℚ)) ++ "°C\n"
    "\n" ++ headCity ++ " REPORT\n" ++ separator ++ "\n" ++
    "Generated: " ++ now ++ "\n\n" ++ blocks ++ avgLine ++
    "Successful sources: " ++ toString results.length ++ "\n" ++ separator ++ "\n"

/-- Multiplying the converted integer default `0` by the wind-speed factor
yields `0`. -/
theorem intCastZero_mul_kph : ((0:Int):ℚ) * KPH_TO_MPS = 0 := by
  norm_num [KPH_TO_MPS]

/-- Multiplying by `KPH_TO_MPS = 1 / 3.6` is division by `3.6` on exact
rationals. -/
theorem mul_kph_eq_div (q : ℚ) : q * KPH_TO_MPS = q / 3.6 := mul_one_div q (3.6:ℚ)

/-- C5: each adapter, fed a payload carrying only the required temperature,
returns the reading whose optional fields are the documented defaults —
`feels_like` equals the temperature, `humidity`, `pressure`, `wind_speed`
and `wind_direction` equal `0`, and `description` equals `"Unknown"`. -/
theorem c5_optional_field_defaults (t : ℚ) (city : String) :
    get_open_meteo city (some (.jobj [("current", .jobj [("temperature_2m", .jfloat t)])]))
      = .ok (some (WeatherData.mk t t 0 0 0 0 (.jstr "Unknown") (.jstr "Open-Meteo") (.jstr city)))
    ∧ get_weather_api city (some (.jobj [("current", .jobj [("temp_c", .jfloat t)])]))
      = .ok (some (WeatherData.mk t t 0 0 0 0 (.jstr "Unknown") (.jstr "WeatherAPI") (.jstr city)))
    ∧ get_wttr_in city (some (.jobj [("current_condition", .jarr [.jobj [("temp_C", .jfloat t)]])]))
      = .ok (some (WeatherData.mk t t 0 0 0 0 (.jstr "Unknown") (.jstr "wttr.in") (.jstr city))) := by
  refine ⟨rfl, ?_, ?_⟩
  · have base : get_weather_api city (some (.jobj [("current", .jobj [("temp_c", .jfloat t)])]))
        = .ok (some (WeatherData.mk t t ((0:Int):ℚ) ((0:Int):ℚ) (((0:Int):ℚ) * KPH_TO_MPS)
            ((0:Int):ℚ) (.jstr "Unknown") (.jstr "WeatherAPI") (.jstr city))) := rfl
    rw [base, intCastZero_mul_kph]
    exact rfl
  · have base : get_wttr_in city (some (.jobj [("current_condition", .jarr [.jobj [("temp_C", .jfloat t)]])]))
        = .ok (some (WeatherData.mk t t ((0:Int):ℚ) ((0:Int):ℚ) (((0:Int):ℚ) * KPH_TO_MPS)
            ((0:Int):ℚ) (.jstr "Unknown") (.jstr "wttr.in") (.jstr city))) := rfl
    rw [base, intCastZero_mul_kph]
    exact rfl

/-- C6: for the two adapters whose provider reports wind speed in km/h,
the stored `wind_speed` in m/s is exactly the reported value divided by
`3.6`, for every rational input value. -/
theorem c6_wind_kph_to_mps_exact (t q : ℚ) (city : String) :
    get_weather_api city (some (.jobj [("current",
        .jobj [("temp_c", .jfloat t), ("wind_kph", .jfloat q)])]))
      = .ok (some (WeatherData.mk t t 0 0 (q / 3.6) 0 (.jstr "Unknown") (.jstr "WeatherAPI") (.jstr city)))
    ∧ get_wttr_in city (some (.jobj [("current_condition",
        .jarr [.jobj [("temp_C", .jfloat t), ("windspeedKmph", .jfloat q)]])]))
      = .ok (some (WeatherData.mk t t 0 0 (q / 3.6) 0 (.jstr "Unknown") (.jstr "wttr.in") (.jstr city))) := by
  constructor
  · have base : get_weather_api city (some (.jobj [("current",
          .jobj [("temp_c", .jfloat t), ("wind_kph", .jfloat q)])]))
        = .ok (some (WeatherData.mk t t ((0:Int):ℚ) ((0:Int):ℚ) (q * KPH_TO_MPS)
            ((0:Int):ℚ) (.jstr "Unknown") (.jstr "WeatherAPI") (.jstr city))) := rfl
    rw [base, mul_kph_eq_div]
    exact rfl
  · have base : get_wttr_in city (some (.jobj [("current_condition",
          .jarr [.jobj [("temp_C", .jfloat t), ("windspeedKmph", .jfloat q)]])]))
        = .ok (some (WeatherData.mk t t ((0:Int):ℚ) ((0:Int):ℚ) (q * KPH_TO_MPS)
            ((0:Int):ℚ) (.jstr "Unknown") (.jstr "wttr.in") (.jstr city))) := rfl
    rw [base, mul_kph_eq_div]
    exact rfl

/-- C9: the report formatter applied to the empty aggregate returns the
fixed sentinel message and not the empty string (and, being a total Lean
function, cannot raise). -/
theorem c9_empty_report_sentinel (now : String) :
    format_weather_report now [] = "No weather data could be retrieved from any source.\n"
    ∧ format_weather_report now [] ≠ "" := by
  refine ⟨rfl, ?_⟩
  intro h
  rw [show format_weather_report now []
      = "No weather data could be retrieved from any source.\n" from rfl] at h
  exact absurd h (by decide)

/-- C10: a wttr.in payload whose required `temp_C` is a plain number but
whose optional `humidity` (or `pressure`, or `winddirDegree`) is the
fractional numeric string "50.5" (resp. "3.5", "12.5") makes `int()`
raise `ValueError`, which the adapter converts into no reading at all;
the same payload with an integral humidity string yields a full reading. -/
theorem c10_wttr_fractional_optional_int_voids_reading :
    pyParseInt "50.5" = none
    ∧ get_wttr_in "Vilnius" (some (.jobj [("current_condition",
        .jarr [.jobj [("temp_C", .jint 5), ("humidity", .jstr "50.5")]])])) = .ok none
    ∧ get_wttr_in "Vilnius" (some (.jobj [("current_condition",
        .jarr [.jobj [("temp_C", .jint 5), ("pressure", .jstr "3.5")]])])) = .ok none
    ∧ get_wttr_in "Vilnius" (some (.jobj [("current_condition",
        .jarr [.jobj [("temp_C", .jint 5), ("winddirDegree", .jstr "12.5")]])])) = .ok none
    ∧ get_wttr_in "Vilnius" (some (.jobj [("current_condition",
        .jarr [.jobj [("temp_C", .jint 5), ("humidity", .jstr "50")]])]))
      = .ok (some (WeatherData.mk 5 5 50 0 0 0 (.jstr "Unknown") (.jstr "wttr.in") (.jstr "Vilnius"))) := by
  refine ⟨rfl, rfl, rfl, rfl, ?_⟩
  have base : get_wttr_in "Vilnius" (some (.jobj [("current_condition",
        .jarr [.jobj [("temp_C", .jint 5), ("humidity", .jstr "50")]])]))
      = .ok (some (WeatherData.mk ((5:Int):ℚ) ((5:Int):ℚ) ((50:Int):ℚ) ((0:Int):ℚ)
          (((0:Int):ℚ) * KPH_TO_MPS) ((0:Int):ℚ)
          (.jstr "Unknown") (.jstr "wttr.in") (.jstr "Vilnius"))) := rfl
  rw [base, intCastZero_mul_kph]
  norm_num

/-- The adapter-level handler converts exactly `ValueError` and
`TypeError` into results; it can never itself be the source of one of
those two errors. -/
theorem catchValueType_ne_value_type (r : Except PyExc (Option WeatherData)) :
    catchValueType r ≠ .error .valueError ∧ catchValueType r ≠ .error .typeError := by
  unfold catchValueType
  rcases r with e | a
  · cases e <;> simp
  · simp

/-- C2 counterexample: the payload `{"current": 5}` has a truthy body and
the `current` key, but `.get` of the temperature field on the integer `5`
raises `AttributeError`, which `except (ValueError, TypeError)` does not
catch — the exception escapes `get_open_meteo` to its caller. -/
theorem c2_counterexample_attribute_error_escapes :
    get_open_meteo "Vilnius" (some (.jobj [("current", .jint 5)])) = .error .attributeError
    ∧ get_wttr_in "Vilnius" (some (.jobj [("current_condition", .jobj [("x", .null)])]))
      = .error .keyError
    ∧ get_wttr_in "Vilnius" (some (.jobj [("current_condition",
        .jarr [.jobj [("temp_C", .jint 5), ("weatherDesc", .jarr [])]])])) = .error .indexError :=
  ⟨rfl, rfl, rfl⟩

/-- C2 amended: any `ValueError` or `TypeError` raised during extraction
or conversion is caught inside the adapter and converted to no reading;
exceptions of other classes (`AttributeError`, `KeyError`, `IndexError`)
are not caught by the adapters and can propagate to their caller. -/
theorem c2_amended_adapters_catch_value_and_type_errors (city : String) (data : Option JVal) :
    (get_open_meteo city data ≠ .error .valueError ∧ get_open_meteo city data ≠ .error .typeError)
    ∧ (get_weather_api city data ≠ .error .valueError ∧ get_weather_api city data ≠ .error .typeError)
    ∧ (get_wttr_in city data ≠ .error .valueError ∧ get_wttr_in city data ≠ .error .typeError) :=
  ⟨catchValueType_ne_value_type (openMeteoBody city data),
   catchValueType_ne_value_type (weatherApiBody city data),
   catchValueType_ne_value_type (wttrInBody city data)⟩

/-- The adapter-level handler never fabricates a reading: a returned
reading comes from the adapter body unchanged. -/
theorem catchValueType_ok_some (r : Except PyExc (Option WeatherData)) (w : WeatherData)
    (h : catchValueType r = .ok (some w)) : r = .ok (some w) := by
  unfold catchValueType at h
  rcases r with e | a
  · cases e <;> simp_all
  · simp_all

/-- Any reading the Open-Meteo body returns passed validation, carries the
fixed source name and the configured city. -/
theorem openMeteoBody_ok_some (city : String) (data : Option JVal) (w : WeatherData)
    (h : openMeteoBody city data = .ok (some w)) :
    isNull w.description = false ∧ w.source = .jstr "Open-Meteo" ∧ w.city = .jstr city := by
  unfold openMeteoBody finishReading at h
  repeat' split at h
  all_goals simp_all [validate_weather_data, isNull]
  subst h
  simp [validate_weather_data, isNull]

/-- Any reading the WeatherAPI body returns passed validation, carries the
fixed source name and the configured city. -/
theorem weatherApiBody_ok_some (city : String) (data : Option JVal) (w : WeatherData)
    (h : weatherApiBody city data = .ok (some w)) :
    isNull w.description = false ∧ w.source = .jstr "WeatherAPI" ∧ w.city = .jstr city := by
  unfold weatherApiBody finishReading at h
  repeat' split at h
  all_goals simp_all [validate_weather_data, isNull]
  subst h
  simp [validate_weather_data, isNull]
  all_goals assumption

/-- Any reading the wttr.in body returns passed validation, carries the
fixed source name and the configured city. -/
theorem wttrInBody_ok_some (city : String) (data : Option JVal) (w : WeatherData)
    (h : wttrInBody city data = .ok (some w)) :
    isNull w.description = false ∧ w.source = .jstr "wttr.in" ∧ w.city = .jstr city := by
  unfold wttrInBody finishReading at h
  repeat' split at h
  all_goals simp_all [validate_weather_data, isNull]
  subst h
  simp [validate_weather_data, isNull]
  all_goals assumption

/-- C4 counterexample: `_validate_weather_data` only rejects `None`
fields, so a WeatherAPI payload whose `condition.text` is the empty
string — or even the number `7` — yields a returned reading whose
`description` is an empty string, respectively not a string at all,
contradicting "description, source, and city are non-empty strings". -/
theorem c4_counterexample_empty_description_returned :
    get_weather_api "Vilnius" (some (.jobj [("current", .jobj [("temp_c", .jint 5),
        ("condition", .jobj [("text", .jstr "")])])]))
      = .ok (some (WeatherData.mk 5 5 0 0 0 0 (.jstr "") (.jstr "WeatherAPI") (.jstr "Vilnius")))
    ∧ get_weather_api "Vilnius" (some (.jobj [("current", .jobj [("temp_c", .jint 5),
        ("condition", .jobj [("text", .jint 7)])])]))
      = .ok (some (WeatherData.mk 5 5 0 0 0 0 (.jint 7) (.jstr "WeatherAPI") (.jstr "Vilnius"))) := by
  constructor
  · have base : get_weather_api "Vilnius" (some (.jobj [("current", .jobj [("temp_c", .jint 5),
          ("condition", .jobj [("text", .jstr "")])])]))
        = .ok (some (WeatherData.mk ((5:Int):ℚ) ((5:Int):ℚ) ((0:Int):ℚ) ((0:Int):ℚ)
            (((0:Int):ℚ) * KPH_TO_MPS) ((0:Int):ℚ)
            (.jstr "") (.jstr "WeatherAPI") (.jstr "Vilnius"))) := rfl
    rw [base, intCastZero_mul_kph]
    exact rfl
  · have base : get_weather_api "Vilnius" (some (.jobj [("current", .jobj [("temp_c", .jint 5),
          ("condition", .jobj [("text", .jint 7)])])]))
        = .ok (some (WeatherData.mk ((5:Int):ℚ) ((5:Int):ℚ) ((0:Int):ℚ) ((0:Int):ℚ)
            (((0:Int):ℚ) * KPH_TO_MPS) ((0:Int):ℚ)
            (.jint 7) (.jstr "WeatherAPI") (.jstr "Vilnius"))) := rfl
    rw [base, intCastZero_mul_kph]
    exact rfl

/-- C4 amended: every reading returned by an adapter has a numeric
temperature (by construction of the record), a `description` that is
present and not `None` — though it may be an empty or non-string value,
since validation only rejects `None` — the fixed source name of the adapter,
and the configured city; an adapter that cannot produce such a record
returns nothing. -/
theorem c4_amended_readings_validated_non_null (city : String) (data : Option JVal)
    (w : WeatherData) :
    (get_open_meteo city data = .ok (some w) →
      isNull w.description = false ∧ w.source = .jstr "Open-Meteo" ∧ w.city = .jstr city)
    ∧ (get_weather_api city data = .ok (some w) →
      isNull w.description = false ∧ w.source = .jstr "WeatherAPI" ∧ w.city = .jstr city)
    ∧ (get_wttr_in city data = .ok (some w) →
      isNull w.description = false ∧ w.source = .jstr "wttr.in" ∧ w.city = .jstr city) :=
  ⟨fun h => openMeteoBody_ok_some city data w (catchValueType_ok_some _ w h),
   fun h => weatherApiBody_ok_some city data w (catchValueType_ok_some _ w h),
   fun h => wttrInBody_ok_some city data w (catchValueType_ok_some _ w h)⟩

/-- Sample Open-Meteo payload: a bare required temperature. -/
def omSample : Option JVal := some (.jobj [("current", .jobj [("temperature_2m", .jfloat 7)])])

/-- The reading `get_open_meteo` produces from `omSample`. -/
def omSampleReading : WeatherData :=
  WeatherData.mk 7 7 0 0 0 0 (.jstr "Unknown") (.jstr "Open-Meteo") (.jstr "Vilnius")

/-- Witness for the amended C4 theorem at a concrete adapter run. -/
theorem c4_witness :
    isNull omSampleReading.description = false
    ∧ omSampleReading.source = .jstr "Open-Meteo"
    ∧ omSampleReading.city = .jstr "Vilnius" :=
  (c4_amended_readings_validated_non_null "Vilnius" omSample omSampleReading).1 rfl

/-- Whether one adapter run produced a reading (it neither returned
`None` nor raised). -/
def adapterSucceeded (p : String × Except PyExc (Option WeatherData)) : Bool :=
  match p.2 with
  | .ok (some _) => true
  | _ => false

/-- The name-reading pair one adapter run contributes to the aggregate,
if any. -/
def aggContribution (p : String × Except PyExc (Option WeatherData)) :
    Option (String × WeatherData) :=
  match p.2 with
  | .ok (some w) => some (p.1, w)
  | _ => none

/-- Inserting a key not yet present appends the pair. -/
theorem dictInsert_fresh (m : List (String × WeatherData)) (k : String) (v : WeatherData)
    (h : m.any (fun p => p.1 = k) = false) : dictInsert m k v = m ++ [(k, v)] := by
  simp only [dictInsert, h]
  simp

/-- The aggregation fold over runs with pairwise distinct names extends
the accumulator with exactly the successful contributions, in order. -/
theorem get_all_aux (runs : List (String × Except PyExc (Option WeatherData))) :
    ∀ acc : List (String × WeatherData),
    (runs.map Prod.fst).Nodup →
    (∀ k, k ∈ runs.map Prod.fst → acc.any (fun p => p.1 = k) = false) →
    runs.foldl aggStep acc = acc ++ runs.filterMap aggContribution := by
  induction runs with
  | nil =>
    intro acc _ _
    simp
  | cons hd tl ih =>
    intro acc hnd hfresh
    rw [List.foldl_cons]
    rw [List.map_cons, List.nodup_cons] at hnd
    obtain ⟨hhd, hnd'⟩ := hnd
    rcases hsucc : hd.2 with e | o
    · have hstep : aggStep acc hd = acc := by simp [aggStep, hsucc]
      rw [hstep, ih acc hnd' (fun k hk => hfresh k (by simp [hk]))]
      simp [List.filterMap_cons, aggContribution, hsucc]
    · rcases o with _ | w
      · have hstep : aggStep acc hd = acc := by simp [aggStep, hsucc]
        rw [hstep, ih acc hnd' (fun k hk => hfresh k (by simp [hk]))]
        simp [List.filterMap_cons, aggContribution, hsucc]
      · have hstep : aggStep acc hd = acc ++ [(hd.1, w)] := by
          have : aggStep acc hd = dictInsert acc hd.1 w := by simp [aggStep, hsucc]
          rw [this, dictInsert_fresh acc hd.1 w (hfresh hd.1 (by simp))]
        have hfresh2 : ∀ k, k ∈ tl.map Prod.fst →
            (acc ++ [(hd.1, w)]).any (fun p => p.1 = k) = false := by
          intro k hk
          have hne : hd.1 ≠ k := fun he => hhd (he ▸ hk)
          have hacc : acc.any (fun p => p.1 = k) = false := hfresh k (by simp [hk])
          simp [List.any_append, hacc, hne]
        rw [hstep, ih (acc ++ [(hd.1, w)]) hnd' hfresh2]
        simp [List.filterMap_cons, aggContribution, hsucc]
  
/-- Counting contributions is counting successful runs. -/
theorem length_filterMap_aggContribution
    (runs : List (String × Except PyExc (Option WeatherData))) :
    (runs.filterMap aggContribution).length = (runs.filter adapterSucceeded).length := by
  induction runs with
  | nil => rfl
  | cons hd tl ih =>
    rcases hsucc : hd.2 with e | o
    · simp [List.filterMap_cons, List.filter_cons, aggContribution, adapterSucceeded, hsucc, ih]
    · rcases o with _ | w
      · simp [List.filterMap_cons, List.filter_cons, aggContribution, adapterSucceeded, hsucc, ih]
      · simp [List.filterMap_cons, List.filter_cons, aggContribution, adapterSucceeded, hsucc, ih]

/-- C1: for any run of the aggregation whose provider names are pairwise
distinct (as the three fixed names are), the result maps each
name of each non-failing adapter to its reading, its size equals the number of
adapters that did not fail, and — being a total Lean function — the
aggregator itself always returns a (possibly empty) mapping. -/
theorem c1_aggregator_isolation (runs : List (String × Except PyExc (Option WeatherData)))
    (hnd : (runs.map Prod.fst).Nodup) :
    (get_all_weather_data runs).length = (runs.filter adapterSucceeded).length
    ∧ ∀ n w, (n, Except.ok (some w)) ∈ runs → (n, w) ∈ get_all_weather_data runs := by
  have hmain : get_all_weather_data runs = runs.filterMap aggContribution := by
    have h := get_all_aux runs [] hnd (fun k _ => rfl)
    simpa [get_all_weather_data] using h
  constructor
  · rw [hmain]
    exact length_filterMap_aggContribution runs
  · intro n w hmem
    rw [hmain]
    exact List.mem_filterMap.mpr ⟨(n, .ok (some w)), hmem, rfl⟩

/-- Sample wttr.in payload that makes the adapter raise `KeyError`: the
`current_condition` value is a dict, so `[0]` fails. -/
def wtRaisingSample : Option JVal := some (.jobj [("current_condition", .jobj [("x", .null)])])

/-- Sample WeatherAPI payload: a bare required temperature. -/
def waSample : Option JVal := some (.jobj [("current", .jobj [("temp_c", .jfloat 9)])])

/-- Witness for C1 on the fixed adapter list where the middle adapter
raises and the other two succeed. -/
theorem c1_witness :
    ((api_functions "Vilnius" omSample wtRaisingSample waSample).map Prod.fst).Nodup
    ∧ (get_all_weather_data (api_functions "Vilnius" omSample wtRaisingSample waSample)).length
        = ((api_functions "Vilnius" omSample wtRaisingSample waSample).filter adapterSucceeded).length :=
  ⟨by decide, (c1_aggregator_isolation _ (by decide)).1⟩

/-- The retry loop performs at most as many network calls as it has
attempts. -/
theorem attemptLoop_calls_le (net : Nat → NetOutcome) :
    ∀ n i, (attemptLoop net i n).calls ≤ n := by
  intro n
  induction n with
  | zero => intro i; simp [attemptLoop]
  | succ m ih =>
    intro i
    simp only [attemptLoop]
    cases h : net i with
    | timeout =>
      simp only []
      split
      · simp
      · have hle := ih (i + 1)
        simp
        omega
    | transportError => simp
    | jsonError => simp
    | success v => simp

/-- C3: with caching off (the cache path is settled by C8), a request to a
valid URL makes at most 2 network attempts (the default
`retry_attempts`); two timeouts give failure after one 1-second backoff
sleep; a timeout followed by a decoded payload gives that payload after
one sleep; a non-timeout transport error or an undecodable body gives
failure after a single attempt with no sleep; and in general the loop
never exceeds its attempt budget. -/
theorem c3_retry_policy (net : Nat → NetOutcome) (now : ℚ) (st : CacheState)
    (pyhash : List (String × JVal) → Int) (url : String) (params : List (String × JVal))
    (hurl : validate_url url = true) :
    (make_request pyhash false 3600 2 net now st url params).calls ≤ 2
    ∧ (net 0 = .timeout → net 1 = .timeout →
        make_request pyhash false 3600 2 net now st url params = ⟨none, 2, 1, st⟩)
    ∧ (∀ v, net 0 = .timeout → net 1 = .success v →
        make_request pyhash false 3600 2 net now st url params = ⟨some v, 2, 1, st⟩)
    ∧ (net 0 = .transportError →
        make_request pyhash false 3600 2 net now st url params = ⟨none, 1, 0, st⟩)
    ∧ (net 0 = .jsonError →
        make_request pyhash false 3600 2 net now st url params = ⟨none, 1, 0, st⟩)
    ∧ (∀ i m, net i = .transportError → attemptLoop net i (m + 1) = ⟨none, 1, 0⟩)
    ∧ (∀ i m, net i = .jsonError → attemptLoop net i (m + 1) = ⟨none, 1, 0⟩)
    ∧ (∀ i, net i = .timeout → attemptLoop net i 1 = ⟨none, 1, 0⟩)
    ∧ (∀ i m v, net i = .success v → attemptLoop net i (m + 1) = ⟨some v, 1, 0⟩)
    ∧ (∀ i m, net i = .timeout → m ≠ 0 → attemptLoop net i (m + 1)
        = ⟨(attemptLoop net (i + 1) m).result, (attemptLoop net (i + 1) m).calls + 1,
            (attemptLoop net (i + 1) m).sleeps + 1⟩)
    ∧ (∀ attempts i, (attemptLoop net i attempts).calls ≤ attempts) := by
  have hbase : make_request pyhash false 3600 2 net now st url params
      = ⟨(attemptLoop net 0 2).result, (attemptLoop net 0 2).calls,
          (attemptLoop net 0 2).sleeps, st⟩ := by
    simp only [make_request, hurl, Bool.not_true, if_false, Bool.false_eq_true]
    cases hres : (attemptLoop net 0 2).result <;>
      simp [hres, cache_response]
  refine ⟨?_, ?_, ?_, ?_, ?_,
    fun i m h => by simp [attemptLoop, h],
    fun i m h => by simp [attemptLoop, h],
    fun i h => by simp [attemptLoop, h],
    fun i m v h => by simp [attemptLoop, h],
    fun i m h hm => by simp [attemptLoop, h, hm],
    fun a i => attemptLoop_calls_le net a i⟩
  · rw [hbase]
    exact attemptLoop_calls_le net 2 0
  · intro h0 h1
    rw [hbase]
    simp [attemptLoop, h0, h1]
  · intro v h0 h1
    rw [hbase]
    simp [attemptLoop, h0, h1]
  · intro h0
    rw [hbase]
    simp [attemptLoop, h0]
  · intro h0
    rw [hbase]
    simp [attemptLoop, h0]

/-- Witness for C3 at a concrete URL and an always-timing-out network. -/
theorem c3_witness :
    validate_url "https://api.open-meteo.com/v1/forecast" = true
    ∧ (make_request (fun _ => 0) false 3600 2 (fun _ => .timeout) 0 []
        "https://api.open-meteo.com/v1/forecast" []).calls ≤ 2 :=
  ⟨by decide, (c3_retry_policy (fun _ => .timeout) 0 [] (fun _ => 0)
      "https://api.open-meteo.com/v1/forecast" [] (by decide)).1⟩

/-- The parameter dict `get_open_meteo` sends (default coordinates). -/
def openMeteoParams : List (String × JVal) :=
  [("latitude", .jfloat 54.6872), ("longitude", .jfloat 25.2797),
   ("current", .jstr "temperature_2m,relative_humidity_2m,apparent_temperature,weather_code,pressure_msl,wind_speed_10m,wind_direction_10m"),
   ("timezone", .jstr "Europe/Vilnius")]

/-- C7: the derived cache key depends on the value of the builtin `hash`
over the sorted parameter pairs, which for string-bearing parameters is
salted per process (PYTHONHASHSEED randomization); two process
invocations — modelled by two hash functions — derive different keys for
the same URL and the same parameter set, so identical logical requests do
not collide across process invocations. -/
theorem c7_cache_key_depends_on_process_hash :
    get_cache_key (fun _ => 0) "https://api.open-meteo.com/v1/forecast" openMeteoParams
      ≠ get_cache_key (fun _ => 1) "https://api.open-meteo.com/v1/forecast" openMeteoParams := by
  decide

/-- Reading back a key just written finds the written payload, aged by the
time difference. -/
theorem load_cached_after_write (ttl now t0 : ℚ) (st : CacheState) (k : String) (p : JVal) :
    load_cached_response true ttl now (cache_response true st k t0 p) k
      = if now - t0 < ttl then some p else none := by
  simp [load_cached_response, cache_response, lookupCache]

/-- The same read-back fact stated on the raw entry list, for use after
`cache_response` has been unfolded. -/
theorem load_cached_cons_self (ttl now t0 : ℚ) (st : CacheState) (k : String) (p : JVal) :
    load_cached_response true ttl now ((k, ⟨t0, p⟩) :: st) k
      = if now - t0 < ttl then some p else none := by
  simp [load_cached_response, lookupCache]

/-- A fresh, truthy cache entry is served without any network call and
without touching the cache. -/
theorem make_request_fresh_truthy (pyhash : List (String × JVal) → Int)
    (net : Nat → NetOutcome) (ttl : ℚ) (retries : Nat) (now t0 : ℚ) (st : CacheState)
    (url : String) (params : List (String × JVal)) (p : JVal)
    (hurl : validate_url url = true) (hfresh : now - t0 < ttl) (htr : pyTruthy p = true) :
    make_request pyhash true ttl retries net now
        (cache_response true st (get_cache_key pyhash url params) t0 p) url params
      = ⟨some p, 0, 0, cache_response true st (get_cache_key pyhash url params) t0 p⟩ := by
  simp only [make_request, hurl, Bool.not_true, Bool.false_eq_true, if_false, if_true,
    load_cached_after_write, if_pos hfresh, htr]

/-- The loop always makes at least one call when it has an attempt budget. -/
theorem attemptLoop_calls_pos (net : Nat → NetOutcome) (i m : Nat) :
    1 ≤ (attemptLoop net i (m + 1)).calls := by
  simp only [attemptLoop]
  cases h : net i with
  | timeout =>
    simp only []
    split
    · simp
    · simp
  | transportError => simp
  | jsonError => simp
  | success v => simp

/-- A stale cache entry is ignored: the retry loop runs and performs at
least one network call. -/
theorem make_request_stale_calls (pyhash : List (String × JVal) → Int)
    (net : Nat → NetOutcome) (ttl : ℚ) (now t0 : ℚ) (st : CacheState)
    (url : String) (params : List (String × JVal)) (p : JVal)
    (hurl : validate_url url = true) (hstale : ¬ (now - t0 < ttl)) :
    1 ≤ (make_request pyhash true ttl 2 net now
        (cache_response true st (get_cache_key pyhash url params) t0 p) url params).calls := by
  simp only [make_request, hurl, Bool.not_true, Bool.false_eq_true, if_false, if_true,
    load_cached_after_write, if_neg hstale]
  cases hres : (attemptLoop net 0 2).result <;>
    simpa [hres] using attemptLoop_calls_pos net 0 1

/-- C8 counterexample: `_make_request` guards the cache hit with
`if cached_data:`, so a cached falsy payload — here the empty object,
written at time 0 and probed at time 10, well within the 3600-second TTL
— is ignored and a network call is performed, returning the fresh
payload instead of the cached one. -/
theorem c8_counterexample_falsy_cached_payload_refetches :
    (make_request (fun _ => 0) true 3600 2 (fun _ => .success (.jobj [("x", .jint 1)])) 10
        (cache_response true [] (get_cache_key (fun _ => 0) "https://wttr.in/Vilnius"
            [("format", .jstr "j1")]) 0 (.jobj []))
        "https://wttr.in/Vilnius" [("format", .jstr "j1")]).calls = 1
    ∧ (make_request (fun _ => 0) true 3600 2 (fun _ => .success (.jobj [("x", .jint 1)])) 10
        (cache_response true [] (get_cache_key (fun _ => 0) "https://wttr.in/Vilnius"
            [("format", .jstr "j1")]) 0 (.jobj []))
        "https://wttr.in/Vilnius" [("format", .jstr "j1")]).result
      = some (.jobj [("x", .jint 1)]) := by
  have hurl : validate_url "https://wttr.in/Vilnius" = true := by decide
  have hfresh : (10:ℚ) - 0 < 3600 := by norm_num
  have h2 : (10:ℚ) < 3600 := by norm_num
  constructor <;>
    simp [make_request, hurl, cache_response, load_cached_cons_self, if_pos hfresh,
      h2, pyTruthy, attemptLoop]

/-- C8 amended: with caching enabled, after a payload is written for a
(url, params) key, a fetch of the same key within the TTL returns the
cached payload with no network call, provided the payload is truthy (the
`if cached_data:` guard discards falsy payloads such as the empty
object, as the counterexample shows); a fetch once the TTL has elapsed
ignores the entry and performs at least one fresh network call. -/
theorem c8_amended_cache_round_trip (pyhash : List (String × JVal) → Int)
    (net : Nat → NetOutcome) (url : String) (params : List (String × JVal))
    (p : JVal) (t0 now : ℚ) (st : CacheState)
    (hurl : validate_url url = true) (htr : pyTruthy p = true) :
    (now - t0 < 3600 →
      make_request pyhash true 3600 2 net now
          (cache_response true st (get_cache_key pyhash url params) t0 p) url params
        = ⟨some p, 0, 0, cache_response true st (get_cache_key pyhash url params) t0 p⟩)
    ∧ (¬ (now - t0 < 3600) →
      1 ≤ (make_request pyhash true 3600 2 net now
          (cache_response true st (get_cache_key pyhash url params) t0 p) url params).calls) :=
  ⟨fun hfresh => make_request_fresh_truthy pyhash net 3600 2 now t0 st url params p hurl hfresh htr,
   fun hstale => make_request_stale_calls pyhash net 3600 now t0 st url params p hurl hstale⟩

/-- Witness for the amended C8 theorem: a truthy payload cached at time 0
is served at time 10 with zero network calls even though the network
would fail. -/
theorem c8_witness :
    validate_url "https://wttr.in/Vilnius" = true
    ∧ pyTruthy (JVal.jobj [("t", .jint 1)]) = true
    ∧ make_request (fun _ => 0) true 3600 2 (fun _ => .transportError) 10
        (cache_response true [] (get_cache_key (fun _ => 0) "https://wttr.in/Vilnius"
            [("format", .jstr "j1")]) 0 (.jobj [("t", .jint 1)]))
        "https://wttr.in/Vilnius" [("format", .jstr "j1")]
      = ⟨some (.jobj [("t", .jint 1)]), 0, 0,
          cache_response true [] (get_cache_key (fun _ => 0) "https://wttr.in/Vilnius"
            [("format", .jstr "j1")]) 0 (.jobj [("t", .jint 1)])⟩ :=
  ⟨by decide, rfl,
    (c8_amended_cache_round_trip (fun _ => 0) (fun _ => .transportError)
      "https://wttr.in/Vilnius" [("format", .jstr "j1")] (.jobj [("t", .jint 1)]) 0 10 []
      (by decide) rfl).1 (by norm_num)⟩
